import Mathlib

/-! # modulus-logger-zap: configuration holder and logger construction

A shallow embedding of `config.go` and `logger.go`.  Pointer receivers become
explicit state passing: a method of `*ModuleConfig` takes the configuration and
returns the updated configuration together with its Go result.  A Go `error`
is an `Option Error` (`none` is `nil`).
-/

namespace Logger

/-! ## Constants of `config.go` -/

def DebugLevel : String := "debug"
def InfoLevel : String := "info"
def WarningLevel : String := "warn"
def ErrorLevel : String := "error"
def FatalLevel : String := "fatal"

def defaultLevel : String := WarningLevel

def ConsoleType : String := "console"
def JsonType : String := "json"

def defaultType : String := JsonType

/-- A Go `error` value, identified by its message. -/
abbrev Error := String

/-! ## Types used from the `encoder` package and from zap -/

/-- A function value of `zapcore` stored in a configuration field (a level,
duration, time or caller encoder), identified by its name; `unset` is `nil`. -/
inductive FuncRef where
  | unset
  | named (name : String)
  deriving DecidableEq, Repr

/-- Modelled from the spec: the type `encoder.Config` of the repository's
`encoder` package is not among the sources; it is modelled with the fields
that `ModuleConfig.EncoderConfig` assigns, the role keys of the
EncoderFieldMap and the four encoder functions. -/
structure encoder.Config where
  TimeKey : String
  LevelKey : String
  LevelIntKey : String
  EnvKey : String
  CallerKey : String
  MessageKey : String
  StacktraceKey : String
  FieldsGroupKey : String
  LineEnding : String
  EncodeLevel : FuncRef
  EncodeDuration : FuncRef
  EncodeTime : FuncRef
  EncodeCaller : FuncRef
  deriving DecidableEq, Repr

/-- The constant `zapcore.DefaultLineEnding`. -/
def zapcore.DefaultLineEnding : String := "\n"

/-! ## `ModuleConfig` -/

structure ModuleConfig where
  app : String
  level : String
  loggerType : String
  encoderConfig : Option encoder.Config
  deriving DecidableEq, Repr

/-- The interface `application.Config`: only `GetEnv` is used. -/
structure application.Config where
  GetEnv : String → String

def NewModuleConfig (encoderConfig : Option encoder.Config) : ModuleConfig :=
  { app := "", level := "", loggerType := "", encoderConfig := encoderConfig }

/-- The method `(*ModuleConfig).EncoderConfig`: materialises the default
encoder configuration when none is stored, and returns the stored one. -/
def ModuleConfig.EncoderConfig (l : ModuleConfig) : ModuleConfig × encoder.Config :=
  match l.encoderConfig with
  | none =>
    let d : encoder.Config :=
      { TimeKey := "datetime"
        LevelKey := "level_name"
        LevelIntKey := "level"
        EnvKey := "env"
        CallerKey := "script_name"
        MessageKey := "message"
        StacktraceKey := "stacktrace"
        FieldsGroupKey := "context"
        LineEnding := zapcore.DefaultLineEnding
        EncodeLevel := FuncRef.named "zapcore.CapitalLevelEncoder"
        EncodeDuration := FuncRef.named "zapcore.SecondsDurationEncoder"
        EncodeTime := FuncRef.named "zapcore.ISO8601TimeEncoder"
        EncodeCaller := FuncRef.named "zapcore.FullCallerEncoder" }
    ({ l with encoderConfig := some d }, d)
  | some c => (l, c)

def ModuleConfig.SetAppNam (l : ModuleConfig) (appName : String) : ModuleConfig × Option Error :=
  ({ l with app := appName }, none)

def ModuleConfig.SetLevel (l : ModuleConfig) (level : String) : ModuleConfig × Option Error :=
  let l1 := { l with level := level }
  if level ≠ DebugLevel ∧ level ≠ InfoLevel ∧ level ≠ WarningLevel ∧
      level ≠ ErrorLevel ∧ level ≠ FatalLevel then
    (l1, some "wrong level value")
  else
    (l1, none)

def ModuleConfig.SetLoggerType (l : ModuleConfig) (loggerType : String) :
    ModuleConfig × Option Error :=
  let l1 := { l with loggerType := loggerType }
  if loggerType ≠ ConsoleType ∧ loggerType ≠ JsonType then
    (l1, some "wrong logger type")
  else
    (l1, none)

def ModuleConfig.IsDebug (l : ModuleConfig) : Bool :=
  l.level == DebugLevel

/-- The method `(*ModuleConfig).InitConfig`. -/
def ModuleConfig.InitConfig (s : ModuleConfig) (config : application.Config) :
    ModuleConfig × Option Error :=
  let s1 := if s.app = "" then { s with app := config.GetEnv "LOGGER_APP" } else s
  let s2 :=
    if s1.level = "" then
      let val := config.GetEnv "LOGGER_LEVEL"
      match s1.SetLevel val with
      | (s1a, some _) => { s1a with level := defaultLevel }
      | (s1a, none) => s1a
    else s1
  let s3 :=
    if s2.loggerType = "" then
      let val := config.GetEnv "LOGGER_TYPE"
      match s2.SetLoggerType val with
      | (s2a, some _) => { s2a with loggerType := defaultType }
      | (s2a, none) => s2a
    else s2
  let s4 := s3.EncoderConfig.1
  (s4, none)

/-! ## zap: levels and their textual names

`GetAtomicLevel` calls `(*zap.AtomicLevel).UnmarshalText`, a function of the
zap library.  `GetAtomicLevel` takes it as a parameter; `zapcore.UnmarshalText`
below is the library's behaviour, used to evaluate `GetAtomicLevel` on
concrete strings. -/

/-- The severities of `zapcore.Level`, in increasing order. -/
inductive zapcore.Level where
  | DebugLevel
  | InfoLevel
  | WarnLevel
  | ErrorLevel
  | DPanicLevel
  | PanicLevel
  | FatalLevel
  deriving DecidableEq, Repr

/-- ASCII lower-casing of one character. -/
def asciiLower (c : Char) : Char :=
  if 'A' ≤ c ∧ c ≤ 'Z' then Char.ofNat (c.toNat + 32) else c

/-- Go's `bytes.ToLower` on text made of ASCII characters: the letters `A` to
`Z` are lower-cased; characters outside ASCII are left as they are. -/
def ToLower (s : String) : String :=
  String.mk (s.data.map asciiLower)

/-- The switch of zap's `(*zapcore.Level).unmarshalText`: the lower-case and
the upper-case spelling of each level, and the empty string for `info`. -/
def zapcore.unmarshalText (text : String) : Option zapcore.Level :=
  if text = "debug" ∨ text = "DEBUG" then some zapcore.Level.DebugLevel
  else if text = "info" ∨ text = "INFO" ∨ text = "" then some zapcore.Level.InfoLevel
  else if text = "warn" ∨ text = "WARN" then some zapcore.Level.WarnLevel
  else if text = "error" ∨ text = "ERROR" then some zapcore.Level.ErrorLevel
  else if text = "dpanic" ∨ text = "DPANIC" then some zapcore.Level.DPanicLevel
  else if text = "panic" ∨ text = "PANIC" then some zapcore.Level.PanicLevel
  else if text = "fatal" ∨ text = "FATAL" then some zapcore.Level.FatalLevel
  else none

/-- The behaviour of zap's `(*zapcore.Level).UnmarshalText`, which
`(*zap.AtomicLevel).UnmarshalText` forwards to: the text as written is tried
first, then its lower-casing; anything else is an error. -/
def zapcore.UnmarshalText (text : String) : Except Error zapcore.Level :=
  match zapcore.unmarshalText text with
  | some l => Except.ok l
  | none =>
    match zapcore.unmarshalText (ToLower text) with
    | some l => Except.ok l
    | none => Except.error ("unrecognized level: " ++ text.quote)

/-- The function `GetAtomicLevel` of `logger.go`.  `UnmarshalText` is zap's
`(*zap.AtomicLevel).UnmarshalText`, which stores the parsed level on success;
on an error the level is set to `zap.DebugLevel`.  The result is the level the
returned `zap.AtomicLevel` holds. -/
def GetAtomicLevel (UnmarshalText : String → Except Error zapcore.Level) (level : String) :
    zapcore.Level :=
  match UnmarshalText level with
  | Except.error _ => zapcore.Level.DebugLevel
  | Except.ok l => l

/-! ## Sinks and the effects of opening them -/

/-- An open output stream (`zapcore.WriteSyncer`), identified by a handle. -/
structure WriteSyncer where
  handle : Nat
  deriving DecidableEq, Repr

/-- What `zap.Open` and the close functions it returns do to the outside
world, in the order it happens. -/
inductive Event where
  | opened (paths : List String) (sink : WriteSyncer)
  | openFailed (paths : List String)
  | closed (sink : WriteSyncer)
  deriving DecidableEq, Repr

/-- The outside world, as the history of sink events. -/
abbrev World := List Event

/-- The outcome of opening a list of paths, given the history so far: the
part of `zap.Open` that depends on the file system. -/
abbrev Opener := World → List String → Except Error WriteSyncer

/-- The library function `zap.Open`: it returns the sink, the function that
closes it, and the error; the attempt is recorded in the history. -/
def zap.Open (o : Opener) (paths : List String) (w : World) :
    (Option WriteSyncer × (World → World) × Option Error) × World :=
  match o w paths with
  | Except.ok sink =>
    ((some sink, (fun w1 => w1 ++ [Event.closed sink]), none), w ++ [Event.opened paths sink])
  | Except.error err =>
    ((none, (fun w1 => w1), some err), w ++ [Event.openFailed paths])

/-! ## `Config` and `Build` -/

structure zap.SamplingConfig where
  Initial : Int
  Thereafter : Int
  deriving DecidableEq, Repr

/-- A `zapcore.Field` built by `zap.String`. -/
structure zapcore.Field where
  Key : String
  Str : String
  deriving DecidableEq, Repr

/-- The options `zap.New` is given by `buildOptions`; `WrapCoreSampler` is
`zap.WrapCore` with the `zapcore.NewSampler` wrapper (tick in seconds). -/
inductive ZapOption where
  | ErrorOutput (w : Option WriteSyncer)
  | AddCaller
  | AddStacktrace (lvl : zapcore.Level)
  | WrapCoreSampler (tickSeconds : Nat) (first : Int) (thereafter : Int)
  | Fields (fs : List zapcore.Field)
  deriving DecidableEq, Repr

/-- The result of `zapcore.NewCore`. -/
structure zapcore.Core (Enc : Type) where
  enc : Enc
  ws : Option WriteSyncer
  enab : zapcore.Level

/-- A `zap.Logger`: its core and the options applied to it, in order. -/
structure zap.Logger (Enc : Type) where
  core : zapcore.Core Enc
  options : List ZapOption

def zapcore.NewCore {Enc : Type} (enc : Enc) (ws : Option WriteSyncer) (enab : zapcore.Level) :
    zapcore.Core Enc :=
  { enc := enc, ws := ws, enab := enab }

def zap.New {Enc : Type} (core : zapcore.Core Enc) (options : List ZapOption) : zap.Logger Enc :=
  { core := core, options := options }

def zap.Logger.WithOptions {Enc : Type} (log : zap.Logger Enc) (opts : List ZapOption) :
    zap.Logger Enc :=
  { log with options := log.options ++ opts }

/-- The struct `Config` of `config.go`; `Enc` is `zapcore.Encoder`. -/
structure Config (Enc : Type) where
  Level : zapcore.Level
  Sampling : Option zap.SamplingConfig
  EncoderConfig : encoder.Config
  OutputPaths : List String
  ErrorOutputPaths : List String
  InitialFields : List zapcore.Field
  EncoderConstructor : encoder.Config → Enc × Option Error

def Config.buildOptions {Enc : Type} (cfg : Config Enc) (errSink : Option WriteSyncer) :
    List ZapOption :=
  let opts := [ZapOption.ErrorOutput errSink]
  let opts := opts ++ [ZapOption.AddCaller]
  let stackLevel := zapcore.Level.ErrorLevel
  let opts := opts ++ [ZapOption.AddStacktrace stackLevel]
  let opts :=
    match cfg.Sampling with
    | some s => opts ++ [ZapOption.WrapCoreSampler 1 s.Initial s.Thereafter]
    | none => opts
  let opts :=
    if cfg.InitialFields.length > 0 then opts ++ [ZapOption.Fields cfg.InitialFields] else opts
  opts

/-- The method `Config.openSinks`: the two sinks and the error, with the
history after the call. -/
def Config.openSinks {Enc : Type} (cfg : Config Enc) (o : Opener) (w : World) :
    (Option WriteSyncer × Option WriteSyncer × Option Error) × World :=
  match zap.Open o cfg.OutputPaths w with
  | ((_, _, some err), w1) => ((none, none, some err), w1)
  | ((sink, closeOut, none), w1) =>
    match zap.Open o cfg.ErrorOutputPaths w1 with
    | ((_, _, some err), w2) => ((none, none, some err), closeOut w2)
    | ((errSink, _, none), w2) => ((sink, errSink, none), w2)

/-- The method `Config.Build`: the logger (`none` is `nil`) and the error,
with the history after the call. -/
def Config.Build {Enc : Type} (cfg : Config Enc) (o : Opener) (opts : List ZapOption)
    (w : World) : (Option (zap.Logger Enc) × Option Error) × World :=
  match cfg.EncoderConstructor cfg.EncoderConfig with
  | (_, some err) => ((none, some err), w)
  | (enc, none) =>
    match cfg.openSinks o w with
    | ((_, _, some err), w1) => ((none, some err), w1)
    | ((sink, errSink, none), w1) =>
      let log := zap.New (zapcore.NewCore enc sink cfg.Level) (cfg.buildOptions errSink)
      let log := if opts.length > 0 then log.WithOptions opts else log
      ((some log, none), w1)

/-! ## `logger.go` -/

/-- The part of `zapcore.EncoderConfig` that `consoleConfig` assigns; `origin`
names the constructor the other fields come from. -/
structure zapcore.EncoderConfig where
  origin : String
  EncodeLevel : FuncRef
  LineEnding : String
  deriving DecidableEq, Repr

/-- The library's `zap.NewDevelopmentEncoderConfig`. -/
def zap.NewDevelopmentEncoderConfig : zapcore.EncoderConfig :=
  { origin := "zap.NewDevelopmentEncoderConfig"
    EncodeLevel := FuncRef.named "zapcore.CapitalLevelEncoder"
    LineEnding := zapcore.DefaultLineEnding }

/-- The fields of the library's `zap.Config` that `consoleConfig` sets. -/
structure zap.Config where
  Level : zapcore.Level
  Development : Bool
  Sampling : Option zap.SamplingConfig
  Encoding : String
  EncoderConfig : zapcore.EncoderConfig
  OutputPaths : List String
  ErrorOutputPaths : List String
  deriving DecidableEq, Repr

/-- What `logger.go` takes from outside the package: zap's level parser, the
repository's `encoder.NewEncoder`, the opening of sinks, and the `Build`
method of the library's `zap.Config`. -/
structure Deps (Enc : Type) where
  UnmarshalText : String → Except Error zapcore.Level
  NewEncoder : encoder.Config → Enc
  Open : Opener
  zapConfigBuild : zap.Config → World → (Option (zap.Logger Enc) × Option Error) × World

/-- The function `jsonConfig`; calling `cfg.EncoderConfig()` may update `cfg`. -/
def jsonConfig {Enc : Type} (d : Deps Enc) (cfg : ModuleConfig)
    (sampling : Option zap.SamplingConfig) : ModuleConfig × Config Enc :=
  let initialFields := [({ Key := "app", Str := cfg.app } : zapcore.Field)]
  let r := cfg.EncoderConfig
  (r.1,
    { Level := GetAtomicLevel d.UnmarshalText cfg.level
      Sampling := sampling
      OutputPaths := ["stderr"]
      ErrorOutputPaths := ["stderr"]
      InitialFields := initialFields
      EncoderConfig := r.2
      EncoderConstructor := fun encoderConfig => (d.NewEncoder encoderConfig, none) })

def consoleConfig {Enc : Type} (d : Deps Enc) (cfg : ModuleConfig)
    (sampling : Option zap.SamplingConfig) : zap.Config :=
  let encoderConfig := zap.NewDevelopmentEncoderConfig
  let encoderConfig :=
    { encoderConfig with EncodeLevel := FuncRef.named "zapcore.CapitalColorLevelEncoder" }
  let encoderConfig := { encoderConfig with LineEnding := "\n\n" }
  { Level := GetAtomicLevel d.UnmarshalText cfg.level
    Development := true
    Sampling := sampling
    Encoding := "console"
    EncoderConfig := encoderConfig
    OutputPaths := ["stderr"]
    ErrorOutputPaths := ["stderr"] }

/-- The interface `ConfigBuilder`, with its two implementations. -/
inductive ConfigBuilder (Enc : Type) where
  | json (c : Config Enc)
  | console (c : zap.Config)

def ConfigBuilder.Build {Enc : Type} (d : Deps Enc) (b : ConfigBuilder Enc)
    (opts : List ZapOption) (w : World) : (Option (zap.Logger Enc) × Option Error) × World :=
  match b with
  | ConfigBuilder.json c => c.Build d.Open opts w
  | ConfigBuilder.console c => d.zapConfigBuild c w

/-- The function `NewZapLogger`: the configuration after the call, the
returned logger (`none` is `nil`), and the history after the call.  The error
of `Build` is dropped, as in `logger, _ := loggerConfig.Build()`. -/
def NewZapLogger {Enc : Type} (d : Deps Enc) (cfg : ModuleConfig) (w : World) :
    (ModuleConfig × Option (zap.Logger Enc)) × World :=
  let sampling : Option zap.SamplingConfig := some { Initial := 100, Thereafter := 100 }
  let r : ModuleConfig × ConfigBuilder Enc :=
    if cfg.loggerType = ConsoleType then
      (cfg, ConfigBuilder.console (consoleConfig d cfg sampling))
    else
      let j := jsonConfig d cfg sampling
      (j.1, ConfigBuilder.json j.2)
  let b := r.2.Build d [] w
  ((r.1, b.1.1), b.2)

/-! ## Vocabulary of the statements -/

/-- The five level names that `SetLevel` compares with. -/
def IsLevelName (v : String) : Prop :=
  v = DebugLevel ∨ v = InfoLevel ∨ v = WarningLevel ∨ v = ErrorLevel ∨ v = FatalLevel

instance (v : String) : Decidable (IsLevelName v) := by
  unfold IsLevelName; infer_instance

/-- The two logger types that `SetLoggerType` compares with. -/
def IsTypeName (v : String) : Prop :=
  v = ConsoleType ∨ v = JsonType

instance (v : String) : Decidable (IsTypeName v) := by
  unfold IsTypeName; infer_instance

/-- The severity a level name stands for. -/
def levelOfName (name : String) : Option zapcore.Level :=
  if name = DebugLevel then some zapcore.Level.DebugLevel
  else if name = InfoLevel then some zapcore.Level.InfoLevel
  else if name = WarningLevel then some zapcore.Level.WarnLevel
  else if name = ErrorLevel then some zapcore.Level.ErrorLevel
  else if name = FatalLevel then some zapcore.Level.FatalLevel
  else none

/-- The configuration after `n` calls of `EncoderConfig`. -/
def afterEncoderConfigCalls : Nat → ModuleConfig → ModuleConfig
  | 0, l => l
  | n + 1, l => afterEncoderConfigCalls n l.EncoderConfig.1

/-- A call of one of the two validating setters. -/
inductive Call where
  | SetLevel (v : String)
  | SetLoggerType (v : String)
  deriving DecidableEq, Repr

/-- Performs the call on the configuration. -/
def Call.run (l : ModuleConfig) : Call → ModuleConfig × Option Error
  | Call.SetLevel v => l.SetLevel v
  | Call.SetLoggerType v => l.SetLoggerType v

/-- Performs a sequence of setter calls, first to last; the caller goes on
whatever error a call returns. -/
def applyCalls (l : ModuleConfig) : List Call → ModuleConfig
  | [] => l
  | c :: cs => applyCalls (c.run l).1 cs

/-- The argument of the last `SetLevel` call of a sequence, when there is one. -/
def lastLevel : List Call → Option String
  | [] => none
  | c :: cs =>
    match lastLevel cs with
    | some v => some v
    | none =>
      match c with
      | Call.SetLevel v => some v
      | Call.SetLoggerType _ => none

/-- The argument of the last `SetLoggerType` call of a sequence, when there is
one. -/
def lastLoggerType : List Call → Option String
  | [] => none
  | c :: cs =>
    match lastLoggerType cs with
    | some v => some v
    | none =>
      match c with
      | Call.SetLevel _ => none
      | Call.SetLoggerType v => some v

/-- An environment that holds `level` in `LOGGER_LEVEL`, "console" in
`LOGGER_TYPE` and "shop" in every other variable. -/
def envWithLevel (level : String) : application.Config :=
  { GetEnv := fun k =>
      if k = "LOGGER_LEVEL" then level else if k = "LOGGER_TYPE" then "console" else "shop" }

/-- An opener as a process meets it: "stderr" always opens, as file
descriptor 2; every other list of paths is refused. -/
def stderrOpener : Opener :=
  fun _ paths =>
    if paths = ["stderr"] then Except.ok { handle := 2 } else Except.error "permission denied"

/-- An opener that opens handle 1 while nothing has happened yet and fails
with "permission denied" afterwards. -/
def openerFailsSecond : Opener :=
  fun w _ => if w.isEmpty then Except.ok { handle := 1 } else Except.error "permission denied"

/-- A stand-in for the `Build` of the library's `zap.Config`, with encoders
that carry no data: it goes through the steps of `Config.Build` on the level,
sampling and paths of the `zap.Config`, opening sinks with `stderrOpener`. -/
def stderrConsoleBuild (c : zap.Config) (w : World) :
    (Option (zap.Logger Unit) × Option Error) × World :=
  Config.Build
    { Level := c.Level
      Sampling := c.Sampling
      EncoderConfig := (NewModuleConfig none).EncoderConfig.2
      OutputPaths := c.OutputPaths
      ErrorOutputPaths := c.ErrorOutputPaths
      InitialFields := []
      EncoderConstructor := fun _ => ((), none) }
    stderrOpener [] w

/-- The surroundings of `logger.go` in a process whose "stderr" opens:
zap's level parser, encoders that carry no data, `stderrOpener`, and
`stderrConsoleBuild` for the library's console `Build`. -/
def stderrDeps : Deps Unit :=
  { UnmarshalText := zapcore.UnmarshalText
    NewEncoder := fun _ => ()
    Open := stderrOpener
    zapConfigBuild := stderrConsoleBuild }

/-- A module configuration with level "info" and logger type "console". -/
def consoleModuleConfig : ModuleConfig :=
  (((NewModuleConfig none).SetLevel "info").1.SetLoggerType "console").1

/-- A module configuration with level "info" and logger type "json". -/
def jsonModuleConfig : ModuleConfig :=
  (((NewModuleConfig none).SetLevel "info").1.SetLoggerType "json").1

/-- A `Config` whose normal output is stderr and whose error output is a file. -/
def fileErrConfig : Config Unit :=
  { Level := zapcore.Level.InfoLevel
    Sampling := none
    EncoderConfig := (NewModuleConfig none).EncoderConfig.2
    OutputPaths := ["stderr"]
    ErrorOutputPaths := ["/var/log/app.err"]
    InitialFields := []
    EncoderConstructor := fun _ => ((), none) }

/-! ## Lemmas on the setters -/

theorem SetLevel_err_eq_none_iff (l : ModuleConfig) (v : String) :
    (l.SetLevel v).2 = none ↔ IsLevelName v := by
  unfold ModuleConfig.SetLevel IsLevelName
  by_cases h : v ≠ DebugLevel ∧ v ≠ InfoLevel ∧ v ≠ WarningLevel ∧ v ≠ ErrorLevel ∧ v ≠ FatalLevel
  · rw [if_pos h]
    obtain ⟨h1, h2, h3, h4, h5⟩ := h
    simp [h1, h2, h3, h4, h5]
  · rw [if_neg h]
    simp only [true_iff]
    by_contra hc
    exact h (by simpa [not_or] using hc)

theorem SetLevel_fst (l : ModuleConfig) (v : String) :
    (l.SetLevel v).1 = { l with level := v } := by
  unfold ModuleConfig.SetLevel
  split_ifs <;> rfl

theorem SetLoggerType_err_eq_none_iff (l : ModuleConfig) (v : String) :
    (l.SetLoggerType v).2 = none ↔ IsTypeName v := by
  unfold ModuleConfig.SetLoggerType IsTypeName
  by_cases h : v ≠ ConsoleType ∧ v ≠ JsonType
  · rw [if_pos h]
    obtain ⟨h1, h2⟩ := h
    simp [h1, h2]
  · rw [if_neg h]
    simp only [true_iff]
    by_contra hc
    exact h (by simpa [not_or] using hc)

theorem SetLoggerType_fst (l : ModuleConfig) (v : String) :
    (l.SetLoggerType v).1 = { l with loggerType := v } := by
  unfold ModuleConfig.SetLoggerType
  split_ifs <;> rfl

/-! ## Lemmas on `InitConfig` -/

theorem EncoderConfig_fst (l : ModuleConfig) :
    l.EncoderConfig.1 =
      { l with encoderConfig := some (l.encoderConfig.getD (NewModuleConfig none).EncoderConfig.2) } := by
  obtain ⟨a, lv, t, e⟩ := l
  cases e <;> rfl

theorem InitConfig_fst (s : ModuleConfig) (config : application.Config) :
    (s.InitConfig config).1 =
      { app := if s.app = "" then config.GetEnv "LOGGER_APP" else s.app
        level :=
          if s.level = "" then
            (if IsLevelName (config.GetEnv "LOGGER_LEVEL") then config.GetEnv "LOGGER_LEVEL"
              else defaultLevel)
          else s.level
        loggerType :=
          if s.loggerType = "" then
            (if IsTypeName (config.GetEnv "LOGGER_TYPE") then config.GetEnv "LOGGER_TYPE"
              else defaultType)
          else s.loggerType
        encoderConfig := some (s.encoderConfig.getD (NewModuleConfig none).EncoderConfig.2) } := by
  obtain ⟨a, lv, t, e⟩ := s
  unfold ModuleConfig.InitConfig
  simp only [EncoderConfig_fst]
  have hL : ∀ (m : ModuleConfig) (v : String),
      (match m.SetLevel v with
        | (s1a, some _) => { s1a with level := defaultLevel }
        | (s1a, none) => s1a) =
      { m with level := if IsLevelName v then v else defaultLevel } := by
    intro m v
    have h1 := SetLevel_fst m v
    have h2 := SetLevel_err_eq_none_iff m v
    rcases hr : m.SetLevel v with ⟨m1, err⟩
    rw [hr] at h1 h2
    simp only at h1 h2
    cases err with
    | none => simp [h1, h2.mp rfl]
    | some x =>
      have : ¬ IsLevelName v := fun hc => by simpa using h2.mpr hc
      simp [h1, this]
  have hT : ∀ (m : ModuleConfig) (v : String),
      (match m.SetLoggerType v with
        | (s2a, some _) => { s2a with loggerType := defaultType }
        | (s2a, none) => s2a) =
      { m with loggerType := if IsTypeName v then v else defaultType } := by
    intro m v
    have h1 := SetLoggerType_fst m v
    have h2 := SetLoggerType_err_eq_none_iff m v
    rcases hr : m.SetLoggerType v with ⟨m1, err⟩
    rw [hr] at h1 h2
    simp only at h1 h2
    cases err with
    | none => simp [h1, h2.mp rfl]
    | some x =>
      have : ¬ IsTypeName v := fun hc => by simpa using h2.mpr hc
      simp [h1, this]
  simp only [hL, hT]
  by_cases ha : a = "" <;> by_cases hl : lv = "" <;> by_cases ht : t = "" <;>
    simp [ha, hl, ht]

theorem InitConfig_snd (s : ModuleConfig) (config : application.Config) :
    (s.InitConfig config).2 = none := rfl

theorem IsLevelName_ne_empty (v : String) (h : IsLevelName v) : v ≠ "" := by
  rcases h with rfl | rfl | rfl | rfl | rfl <;> decide

theorem IsTypeName_ne_empty (v : String) (h : IsTypeName v) : v ≠ "" := by
  rcases h with rfl | rfl <;> decide

/-! ## Lemmas on sequences of setter calls -/

theorem applyCalls_level (cs : List Call) (l : ModuleConfig) :
    (applyCalls l cs).level = (lastLevel cs).getD l.level := by
  induction cs generalizing l with
  | nil => rfl
  | cons c cs ih =>
    simp only [applyCalls, lastLevel]
    rw [ih]
    cases hlast : lastLevel cs with
    | some v => rfl
    | none =>
      cases c with
      | SetLevel v => simp [Call.run, SetLevel_fst]
      | SetLoggerType v => simp [Call.run, SetLoggerType_fst]

theorem applyCalls_loggerType (cs : List Call) (l : ModuleConfig) :
    (applyCalls l cs).loggerType = (lastLoggerType cs).getD l.loggerType := by
  induction cs generalizing l with
  | nil => rfl
  | cons c cs ih =>
    simp only [applyCalls, lastLoggerType]
    rw [ih]
    cases hlast : lastLoggerType cs with
    | some v => rfl
    | none =>
      cases c with
      | SetLevel v => simp [Call.run, SetLevel_fst]
      | SetLoggerType v => simp [Call.run, SetLoggerType_fst]

/-! ## Lemmas on `Build` and `NewZapLogger` -/

theorem Build_cases {Enc : Type} (c : Config Enc) (o : Opener) (os : List ZapOption)
    (w : World) :
    ((c.Build o os w).1.2 ≠ none ∧ (c.Build o os w).1.1 = none ↔
      ((c.EncoderConstructor c.EncoderConfig).2 ≠ none ∨
        (c.openSinks o w).1.2.2 ≠ none)) ∧
    (∀ e : Error, (c.EncoderConstructor c.EncoderConfig).2 = some e →
      c.Build o os w = ((none, some e), w)) ∧
    (∀ e : Error, (c.EncoderConstructor c.EncoderConfig).2 = none →
      (c.openSinks o w).1.2.2 = some e →
      c.Build o os w = ((none, some e), (c.openSinks o w).2)) ∧
    ((c.EncoderConstructor c.EncoderConfig).2 = none → (c.openSinks o w).1.2.2 = none →
      (c.Build o os w).1.2 = none ∧ (c.Build o os w).1.1 ≠ none ∧
      (c.Build o os w).2 = (c.openSinks o w).2) ∧
    ((c.Build o os w).1.1 = none ↔ (c.Build o os w).1.2 ≠ none) := by
  unfold Config.Build
  rcases hE : c.EncoderConstructor c.EncoderConfig with ⟨enc, eerr⟩
  rcases hS : c.openSinks o w with ⟨⟨sink, errSink, serr⟩, w2⟩
  cases eerr with
  | some e1 => simp
  | none =>
    cases serr with
    | some e2 => simp
    | none => simp

theorem openSinks_err_none_of_opens {Enc : Type} (c : Config Enc) (o : Opener) (w : World)
    (h1 : ∀ w1, ∃ sink, o w1 c.OutputPaths = Except.ok sink)
    (h2 : ∀ w1, ∃ sink, o w1 c.ErrorOutputPaths = Except.ok sink) :
    (c.openSinks o w).1.2.2 = none := by
  obtain ⟨s1, hs1⟩ := h1 w
  obtain ⟨s2, hs2⟩ := h2 (w ++ [Event.opened c.OutputPaths s1])
  simp [Config.openSinks, zap.Open, hs1, hs2]

theorem NewZapLogger_json {Enc : Type} (d : Deps Enc) (m : ModuleConfig) (w : World)
    (hjson : m.loggerType ≠ ConsoleType) :
    NewZapLogger d m w =
      (((jsonConfig d m (some { Initial := 100, Thereafter := 100 })).1,
        ((jsonConfig d m (some { Initial := 100, Thereafter := 100 })).2.Build
          d.Open [] w).1.1),
        ((jsonConfig d m (some { Initial := 100, Thereafter := 100 })).2.Build
          d.Open [] w).2) := by
  unfold NewZapLogger
  simp only [if_neg hjson]
  rfl

theorem NewZapLogger_console {Enc : Type} (d : Deps Enc) (m : ModuleConfig) (w : World)
    (hcons : m.loggerType = ConsoleType) :
    NewZapLogger d m w =
      ((m, (d.zapConfigBuild
          (consoleConfig d m (some { Initial := 100, Thereafter := 100 })) w).1.1),
        (d.zapConfigBuild
          (consoleConfig d m (some { Initial := 100, Thereafter := 100 })) w).2) := by
  unfold NewZapLogger
  simp only [if_pos hcons]
  rfl

/-! ## Lemmas on the level parser -/

theorem unmarshalText_ToLower (v : String) (lvl : zapcore.Level)
    (h : zapcore.unmarshalText v = some lvl) :
    zapcore.unmarshalText (ToLower v) = some lvl := by
  unfold zapcore.unmarshalText at h
  split_ifs at h with h1 h2 h3 h4 h5 h6 h7
  · cases h; rcases h1 with rfl | rfl <;> decide
  · cases h; rcases h2 with rfl | rfl | rfl <;> decide
  · cases h; rcases h3 with rfl | rfl <;> decide
  · cases h; rcases h4 with rfl | rfl <;> decide
  · cases h; rcases h5 with rfl | rfl <;> decide
  · cases h; rcases h6 with rfl | rfl <;> decide
  · cases h; rcases h7 with rfl | rfl <;> decide

theorem UnmarshalText_of_lower (v : String) (lvl : zapcore.Level)
    (h : zapcore.unmarshalText (ToLower v) = some lvl) :
    zapcore.UnmarshalText v = Except.ok lvl := by
  unfold zapcore.UnmarshalText
  cases hv : zapcore.unmarshalText v with
  | none => simp [h]
  | some l =>
    have := unmarshalText_ToLower v l hv
    rw [h] at this
    cases this
    rfl

theorem levelOfName_eq_unmarshalText (name : String) (h : IsLevelName name) :
    levelOfName name = zapcore.unmarshalText name := by
  rcases h with rfl | rfl | rfl | rfl | rfl <;> decide

theorem GetAtomicLevel_of_error (p : String → Except Error zapcore.Level) (v : String)
    (e : Error) (h : p v = Except.error e) :
    GetAtomicLevel p v = zapcore.Level.DebugLevel := by
  unfold GetAtomicLevel
  rw [h]

/-! ## Properties of the specification -/

/-- C1: `SetLevel v` returns a nil error if and only if `v` is exactly one of
"debug", "info", "warn", "error", "fatal"; for every other string the error
is non-nil (it is "wrong level value"). -/
theorem C1_SetLevel_nil_iff_exact_name (l : ModuleConfig) (v : String) :
    ((l.SetLevel v).2 = none ↔
      (v = "debug" ∨ v = "info" ∨ v = "warn" ∨ v = "error" ∨ v = "fatal")) ∧
    ((l.SetLevel v).2 ≠ none ↔
      ¬ (v = "debug" ∨ v = "info" ∨ v = "warn" ∨ v = "error" ∨ v = "fatal")) ∧
    ((l.SetLevel v).2 = none ∨ (l.SetLevel v).2 = some "wrong level value") := by
  have h := SetLevel_err_eq_none_iff l v
  refine ⟨h, not_congr h, ?_⟩
  unfold ModuleConfig.SetLevel
  split_ifs
  · exact Or.inr rfl
  · exact Or.inl rfl

/-- C2, as the claim states it, fails at "DEBUG": it equals the level name
"debug" up to letter case, yet `SetLevel "DEBUG"` returns the error
"wrong level value" (the level it stores still resolves to debug). -/
theorem C2_SetLevel_rejects_upper_case :
    ToLower "DEBUG" = DebugLevel ∧
    ((NewModuleConfig none).SetLevel "DEBUG").2 = some "wrong level value" ∧
    GetAtomicLevel zapcore.UnmarshalText "DEBUG" = zapcore.Level.DebugLevel := by
  decide

/-- C2, amended: for every string `v` that equals one of the five level names
up to ASCII letter case, `SetLevel v` stores `v`, the severity `GetAtomicLevel`
resolves from `v` is the matching one, and `SetLevel v` returns no error
exactly when `v` is the lower-case name itself. -/
theorem C2_case_variants_resolve_but_SetLevel_is_exact (l : ModuleConfig) (v : String)
    (h : IsLevelName (ToLower v)) :
    ((l.SetLevel v).2 = none ↔ v = ToLower v) ∧
    (l.SetLevel v).1.level = v ∧
    some (GetAtomicLevel zapcore.UnmarshalText v) = levelOfName (ToLower v) := by
  refine ⟨?_, ?_, ?_⟩
  · rw [SetLevel_err_eq_none_iff]
    constructor
    · intro hv
      rcases hv with rfl | rfl | rfl | rfl | rfl <;> decide
    · intro hv
      rw [hv]
      exact h
  · rw [SetLevel_fst]
  · rw [levelOfName_eq_unmarshalText _ h]
    cases hl : zapcore.unmarshalText (ToLower v) with
    | none =>
      rcases h with h | h | h | h | h <;> rw [h] at hl <;> exact absurd hl (by decide)
    | some lvl =>
      unfold GetAtomicLevel
      rw [UnmarshalText_of_lower v lvl hl]

theorem C2_case_variants_witness :
    IsLevelName (ToLower "Warn") ∧
    ((((NewModuleConfig none).SetLevel "Warn").2 = none ↔ "Warn" = ToLower "Warn") ∧
      ((NewModuleConfig none).SetLevel "Warn").1.level = "Warn" ∧
      some (GetAtomicLevel zapcore.UnmarshalText "Warn") = levelOfName (ToLower "Warn")) :=
  ⟨by decide, C2_case_variants_resolve_but_SetLevel_is_exact (NewModuleConfig none) "Warn"
    (by decide)⟩

/-- C3: `InitConfig` always returns a nil error; when the level is unset the
resulting level is the value of `LOGGER_LEVEL` if that is one of the five
level names and "warn" otherwise; when the logger type is unset the resulting
type is the value of `LOGGER_TYPE` if that is "console" or "json" and "json"
otherwise. -/
theorem C3_InitConfig_fills_unset_from_env (s : ModuleConfig) (config : application.Config) :
    (s.InitConfig config).2 = none ∧
    (s.level = "" →
      (s.InitConfig config).1.level =
        if config.GetEnv "LOGGER_LEVEL" = "debug" ∨ config.GetEnv "LOGGER_LEVEL" = "info" ∨
            config.GetEnv "LOGGER_LEVEL" = "warn" ∨ config.GetEnv "LOGGER_LEVEL" = "error" ∨
            config.GetEnv "LOGGER_LEVEL" = "fatal"
          then config.GetEnv "LOGGER_LEVEL" else "warn") ∧
    (s.loggerType = "" →
      (s.InitConfig config).1.loggerType =
        if config.GetEnv "LOGGER_TYPE" = "console" ∨ config.GetEnv "LOGGER_TYPE" = "json"
          then config.GetEnv "LOGGER_TYPE" else "json") := by
  refine ⟨rfl, ?_, ?_⟩
  · intro hl
    rw [InitConfig_fst]
    simp only [hl, if_true]
    rfl
  · intro ht
    rw [InitConfig_fst]
    simp only [ht, if_true]
    rfl

theorem C3_InitConfig_witness :
    ((NewModuleConfig none).InitConfig (envWithLevel "Debug")).2 = none ∧
    ((NewModuleConfig none).InitConfig (envWithLevel "Debug")).1.level = "warn" ∧
    ((NewModuleConfig none).InitConfig (envWithLevel "Debug")).1.loggerType = "console" := by
  have h := C3_InitConfig_fills_unset_from_env (NewModuleConfig none) (envWithLevel "Debug")
  refine ⟨h.1, ?_, ?_⟩
  · rw [h.2.1 rfl]; decide
  · rw [h.2.2 rfl]; decide

/-- C4: `InitConfig` is idempotent: a second call with the same environment
leaves app, level, loggerType and the encoder configuration as the first call
left them, and returns the same nil error. -/
theorem C4_InitConfig_idempotent (s : ModuleConfig) (config : application.Config) :
    ((s.InitConfig config).1.InitConfig config).1.app = (s.InitConfig config).1.app ∧
    ((s.InitConfig config).1.InitConfig config).1.level = (s.InitConfig config).1.level ∧
    ((s.InitConfig config).1.InitConfig config).1.loggerType =
      (s.InitConfig config).1.loggerType ∧
    ((s.InitConfig config).1.InitConfig config).1.encoderConfig =
      (s.InitConfig config).1.encoderConfig ∧
    ((s.InitConfig config).1.InitConfig config).1.EncoderConfig.2 =
      (s.InitConfig config).1.EncoderConfig.2 ∧
    (s.InitConfig config).1.InitConfig config = s.InitConfig config := by
  have hlvl : (s.InitConfig config).1.level ≠ "" := by
    rw [InitConfig_fst]
    simp only
    split_ifs with h1 h2
    · exact IsLevelName_ne_empty _ h2
    · decide
    · exact h1
  have hty : (s.InitConfig config).1.loggerType ≠ "" := by
    rw [InitConfig_fst]
    simp only
    split_ifs with h1 h2
    · exact IsTypeName_ne_empty _ h2
    · decide
    · exact h1
  have happ : (s.InitConfig config).1.app = "" → config.GetEnv "LOGGER_APP" = "" := by
    rw [InitConfig_fst]
    simp only
    split_ifs with h1
    · exact id
    · intro h; exact absurd h h1
  have henc : (s.InitConfig config).1.encoderConfig =
      some (s.encoderConfig.getD (NewModuleConfig none).EncoderConfig.2) := by
    rw [InitConfig_fst]
  have key : ((s.InitConfig config).1.InitConfig config).1 = (s.InitConfig config).1 := by
    rw [InitConfig_fst (s.InitConfig config).1]
    generalize (s.InitConfig config).1 = t at hlvl hty happ henc
    obtain ⟨a, lv, ty, e⟩ := t
    simp only at hlvl hty happ henc
    simp only [hlvl, hty, henc, if_false, Option.getD_some]
    by_cases ha : a = ""
    · simp [ha, happ ha]
    · simp [ha]
  have key2 : (s.InitConfig config).1.InitConfig config = s.InitConfig config :=
    Prod.ext key rfl
  refine ⟨?_, ?_, ?_, ?_, ?_, key2⟩ <;> rw [key]

/-- C5, as the claim states it, fails for the empty string: after
`SetLevel ""` the level counts as unset, so `InitConfig` reads `LOGGER_LEVEL`
and two environments that differ only there give different levels. -/
theorem C5_empty_level_reads_env :
    (∀ k : String, k ≠ "LOGGER_LEVEL" →
      (envWithLevel "debug").GetEnv k = (envWithLevel "error").GetEnv k) ∧
    ((((NewModuleConfig none).SetLevel "").1.InitConfig (envWithLevel "debug")).1.level =
      "debug") ∧
    ((((NewModuleConfig none).SetLevel "").1.InitConfig (envWithLevel "error")).1.level =
      "error") := by
  refine ⟨?_, by decide, by decide⟩
  intro k hk
  simp [envWithLevel, hk]

/-- C5, amended: for every non-empty string `v` and every two environments
that differ only in `LOGGER_LEVEL`, after `SetLevel v` the call of
`InitConfig` leaves the level `v` and gives the same configuration and result
under both environments. -/
theorem C5_preset_level_ignores_env (l : ModuleConfig) (v : String)
    (c1 c2 : application.Config) (hv : v ≠ "")
    (hsame : ∀ k : String, k ≠ "LOGGER_LEVEL" → c1.GetEnv k = c2.GetEnv k) :
    ((l.SetLevel v).1.InitConfig c1).1.level = v ∧
    (l.SetLevel v).1.InitConfig c1 = (l.SetLevel v).1.InitConfig c2 := by
  have happ : c1.GetEnv "LOGGER_APP" = c2.GetEnv "LOGGER_APP" := hsame _ (by decide)
  have hty : c1.GetEnv "LOGGER_TYPE" = c2.GetEnv "LOGGER_TYPE" := hsame _ (by decide)
  constructor
  · rw [InitConfig_fst, SetLevel_fst]
    simp [hv]
  · apply Prod.ext
    · rw [InitConfig_fst, InitConfig_fst, SetLevel_fst]
      simp [hv, happ, hty]
    · rfl

theorem C5_preset_level_witness :
    ((((NewModuleConfig none).SetLevel "verbose").1.InitConfig (envWithLevel "debug")).1.level =
      "verbose") ∧
    ((NewModuleConfig none).SetLevel "verbose").1.InitConfig (envWithLevel "debug") =
      ((NewModuleConfig none).SetLevel "verbose").1.InitConfig (envWithLevel "error") :=
  C5_preset_level_ignores_env (NewModuleConfig none) "verbose" (envWithLevel "debug")
    (envWithLevel "error") (by decide) (fun k hk => by simp [envWithLevel, hk])

/-- C6, as the claim states it, fails: a level and a logger type that the
setters rejected stay in the configuration through `InitConfig`. -/
theorem C6_rejected_values_survive_InitConfig :
    ((NewModuleConfig none).SetLevel "verbose").2 = some "wrong level value" ∧
    ((applyCalls (NewModuleConfig none)
        [Call.SetLevel "verbose", Call.SetLoggerType "xml"]).InitConfig
          (envWithLevel "info")).1.level = "verbose" ∧
    ((applyCalls (NewModuleConfig none)
        [Call.SetLevel "verbose", Call.SetLoggerType "xml"]).InitConfig
          (envWithLevel "info")).1.loggerType = "xml" ∧
    ¬ IsLevelName "verbose" ∧ ¬ IsTypeName "xml" := by
  decide

/-- C6, amended: for every sequence of `SetLevel` / `SetLoggerType` calls on a
new configuration (calls that returned a validation error included) in which
the last `SetLevel` call, when there is one, passed a level name or the empty
string, and the last `SetLoggerType` call, when there is one, passed
"console", "json" or the empty string, after `InitConfig` under any
environment the level is one of debug/info/warn/error/fatal and the logger
type is one of console/json. -/
theorem C6_InitConfig_valid_unless_invalid_preset (ec : Option encoder.Config)
    (cs : List Call) (config : application.Config)
    (hl : ∀ v, lastLevel cs = some v → v = "" ∨ IsLevelName v)
    (ht : ∀ v, lastLoggerType cs = some v → v = "" ∨ IsTypeName v) :
    IsLevelName ((applyCalls (NewModuleConfig ec) cs).InitConfig config).1.level ∧
    IsTypeName ((applyCalls (NewModuleConfig ec) cs).InitConfig config).1.loggerType := by
  have h1 : (applyCalls (NewModuleConfig ec) cs).level = "" ∨
      IsLevelName (applyCalls (NewModuleConfig ec) cs).level := by
    rw [applyCalls_level]
    cases hlast : lastLevel cs with
    | none => exact Or.inl rfl
    | some v => exact hl v hlast
  have h2 : (applyCalls (NewModuleConfig ec) cs).loggerType = "" ∨
      IsTypeName (applyCalls (NewModuleConfig ec) cs).loggerType := by
    rw [applyCalls_loggerType]
    cases hlast : lastLoggerType cs with
    | none => exact Or.inl rfl
    | some v => exact ht v hlast
  rw [InitConfig_fst]
  simp only
  constructor
  · split_ifs with a b
    · exact b
    · decide
    · exact h1.resolve_left a
  · split_ifs with a b
    · exact b
    · decide
    · exact h2.resolve_left a

theorem C6_InitConfig_valid_witness :
    IsLevelName ((applyCalls (NewModuleConfig none)
      [Call.SetLevel "verbose", Call.SetLoggerType "xml", Call.SetLevel "fatal",
        Call.SetLoggerType ""]).InitConfig (envWithLevel "Info")).1.level ∧
    IsTypeName ((applyCalls (NewModuleConfig none)
      [Call.SetLevel "verbose", Call.SetLoggerType "xml", Call.SetLevel "fatal",
        Call.SetLoggerType ""]).InitConfig (envWithLevel "Info")).1.loggerType :=
  C6_InitConfig_valid_unless_invalid_preset none
    [Call.SetLevel "verbose", Call.SetLoggerType "xml", Call.SetLevel "fatal",
      Call.SetLoggerType ""] (envWithLevel "Info")
    (fun v hv => by
      have h : v = "fatal" := by
        have h0 : lastLevel [Call.SetLevel "verbose", Call.SetLoggerType "xml",
            Call.SetLevel "fatal", Call.SetLoggerType ""] = some "fatal" := by decide
        rw [h0] at hv
        exact (Option.some.inj hv).symm
      subst h
      decide)
    (fun v hv => by
      have h : v = "" := by
        have h0 : lastLoggerType [Call.SetLevel "verbose", Call.SetLoggerType "xml",
            Call.SetLevel "fatal", Call.SetLoggerType ""] = some "" := by decide
        rw [h0] at hv
        exact (Option.some.inj hv).symm
      exact Or.inl h)

/-- C7: on a configuration created with no encoder override, every call of
`EncoderConfig` (the first and every later one) returns the default mapping
datetime / level_name / level / env / script_name / message / stacktrace /
context, all role keys non-empty; on a configuration created with an override
`c`, every call returns `c`. -/
theorem C7_EncoderConfig_default_and_override :
    (∀ n : Nat,
      let r := (afterEncoderConfigCalls n (NewModuleConfig none)).EncoderConfig.2
      (r.TimeKey = "datetime" ∧ r.LevelKey = "level_name" ∧ r.LevelIntKey = "level" ∧
        r.EnvKey = "env" ∧ r.CallerKey = "script_name" ∧ r.MessageKey = "message" ∧
        r.StacktraceKey = "stacktrace" ∧ r.FieldsGroupKey = "context") ∧
      (r.TimeKey ≠ "" ∧ r.LevelKey ≠ "" ∧ r.LevelIntKey ≠ "" ∧ r.EnvKey ≠ "" ∧
        r.CallerKey ≠ "" ∧ r.MessageKey ≠ "" ∧ r.StacktraceKey ≠ "" ∧
        r.FieldsGroupKey ≠ "") ∧
      r = (NewModuleConfig none).EncoderConfig.2) ∧
    (∀ (c : encoder.Config) (n : Nat),
      (afterEncoderConfigCalls n (NewModuleConfig (some c))).EncoderConfig.2 = c) := by
  have hsome : ∀ (n : Nat) (l : ModuleConfig) (c : encoder.Config),
      l.encoderConfig = some c → (afterEncoderConfigCalls n l).EncoderConfig.2 = c := by
    intro n
    induction n with
    | zero =>
      intro l c hl
      simp [afterEncoderConfigCalls, ModuleConfig.EncoderConfig, hl]
    | succ k ih =>
      intro l c hl
      have h1 : l.EncoderConfig.1 = l := by
        simp [ModuleConfig.EncoderConfig, hl]
      simp only [afterEncoderConfigCalls]
      rw [h1]
      exact ih l c hl
  have hnone : ∀ n : Nat,
      (afterEncoderConfigCalls n (NewModuleConfig none)).EncoderConfig.2 =
        (NewModuleConfig none).EncoderConfig.2 := by
    intro n
    cases n with
    | zero => rfl
    | succ k =>
      simp only [afterEncoderConfigCalls]
      exact hsome k _ _ rfl
  refine ⟨?_, ?_⟩
  · intro n
    simp only
    rw [hnone n]
    decide
  · intro c n
    exact hsome n _ c rfl

/-- C8: if opening `OutputPaths` succeeds and opening `ErrorOutputPaths` then
fails, `openSinks` returns no sinks and the error of the failed open, and the
last thing it does is to call the primary sink's close function, once; if
opening `OutputPaths` fails, that error is returned with no sinks and nothing
further is opened. -/
theorem C8_openSinks_closes_primary_on_failure {Enc : Type} (cfg : Config Enc) (o : Opener)
    (w : World) :
    (∀ (sink : WriteSyncer) (err : Error),
      o w cfg.OutputPaths = Except.ok sink →
      o (w ++ [Event.opened cfg.OutputPaths sink]) cfg.ErrorOutputPaths = Except.error err →
        (cfg.openSinks o w).1 = (none, none, some err) ∧
        (cfg.openSinks o w).2 =
          w ++ [Event.opened cfg.OutputPaths sink, Event.openFailed cfg.ErrorOutputPaths,
            Event.closed sink] ∧
        (cfg.openSinks o w).2.count (Event.closed sink) = w.count (Event.closed sink) + 1) ∧
    (∀ err : Error,
      o w cfg.OutputPaths = Except.error err →
        (cfg.openSinks o w).1 = (none, none, some err) ∧
        (cfg.openSinks o w).2 = w ++ [Event.openFailed cfg.OutputPaths]) := by
  constructor
  · intro sink err h1 h2
    have hr : cfg.openSinks o w =
        ((none, none, some err),
          w ++ [Event.opened cfg.OutputPaths sink, Event.openFailed cfg.ErrorOutputPaths,
            Event.closed sink]) := by
      simp [Config.openSinks, zap.Open, h1, h2]
    rw [hr]
    refine ⟨rfl, rfl, ?_⟩
    simp [List.count_append, List.count_cons]
  · intro err h1
    have hr : cfg.openSinks o w =
        ((none, none, some err), w ++ [Event.openFailed cfg.OutputPaths]) := by
      simp [Config.openSinks, zap.Open, h1]
    rw [hr]
    exact ⟨rfl, rfl⟩

theorem C8_openSinks_witness :
    (fileErrConfig.openSinks openerFailsSecond []).1 = (none, none, some "permission denied") ∧
    (fileErrConfig.openSinks openerFailsSecond []).2 =
      [Event.opened ["stderr"] { handle := 1 }, Event.openFailed ["/var/log/app.err"],
        Event.closed { handle := 1 }] ∧
    (fileErrConfig.openSinks openerFailsSecond []).2.count (Event.closed { handle := 1 }) = 1 :=
  (C8_openSinks_closes_primary_on_failure fileErrConfig openerFailsSecond []).1
    { handle := 1 } "permission denied" rfl rfl

/-- C10: `Build` returns a non-nil error and no logger exactly when the
`EncoderConstructor` returns an error or `openSinks` returns an error, the
returned error is that step's error, an encoder constructor that fails leaves
the sinks untouched, and otherwise `Build` returns a logger and a nil error.
`NewZapLogger` returns the logger of the `Build` it calls (the library's on the
console path, which returns a nil logger exactly when it returns an error), so
its logger is nil exactly when that `Build` failed: a failure reaches the
caller as a nil logger.  On the json path, in every world in which "stderr"
opens, that `Build` returns a nil error and `NewZapLogger` a logger, so the
error value that `NewZapLogger` leaves out is nil. -/
theorem C10_Build_failure_reaches_caller {Enc : Type} (cfg : Config Enc)
    (o : Opener) (opts : List ZapOption) (w : World) (d : Deps Enc) (m : ModuleConfig)
    (hlib : ∀ (c : zap.Config) (w1 : World),
      (d.zapConfigBuild c w1).1.1 = none ↔ (d.zapConfigBuild c w1).1.2 ≠ none) :
    (((cfg.Build o opts w).1.2 ≠ none ∧ (cfg.Build o opts w).1.1 = none) ↔
      ((cfg.EncoderConstructor cfg.EncoderConfig).2 ≠ none ∨
        (cfg.openSinks o w).1.2.2 ≠ none)) ∧
    (∀ e : Error, (cfg.EncoderConstructor cfg.EncoderConfig).2 = some e →
      cfg.Build o opts w = ((none, some e), w)) ∧
    (∀ e : Error, (cfg.EncoderConstructor cfg.EncoderConfig).2 = none →
      (cfg.openSinks o w).1.2.2 = some e →
      cfg.Build o opts w = ((none, some e), (cfg.openSinks o w).2)) ∧
    ((cfg.EncoderConstructor cfg.EncoderConfig).2 = none → (cfg.openSinks o w).1.2.2 = none →
      (cfg.Build o opts w).1.2 = none ∧ (cfg.Build o opts w).1.1 ≠ none ∧
      (cfg.Build o opts w).2 = (cfg.openSinks o w).2) ∧
    (m.loggerType ≠ ConsoleType →
      (NewZapLogger d m w).1.2 =
        ((jsonConfig d m (some { Initial := 100, Thereafter := 100 })).2.Build
          d.Open [] w).1.1 ∧
      (NewZapLogger d m w).2 =
        ((jsonConfig d m (some { Initial := 100, Thereafter := 100 })).2.Build
          d.Open [] w).2 ∧
      ((NewZapLogger d m w).1.2 = none ↔
        ((jsonConfig d m (some { Initial := 100, Thereafter := 100 })).2.Build
          d.Open [] w).1.2 ≠ none)) ∧
    (m.loggerType = ConsoleType →
      (NewZapLogger d m w).1.2 =
        (d.zapConfigBuild
          (consoleConfig d m (some { Initial := 100, Thereafter := 100 })) w).1.1 ∧
      (NewZapLogger d m w).2 =
        (d.zapConfigBuild
          (consoleConfig d m (some { Initial := 100, Thereafter := 100 })) w).2 ∧
      ((NewZapLogger d m w).1.2 = none ↔
        (d.zapConfigBuild
          (consoleConfig d m (some { Initial := 100, Thereafter := 100 })) w).1.2 ≠ none)) ∧
    (m.loggerType ≠ ConsoleType → (∀ w1, ∃ sink, d.Open w1 ["stderr"] = Except.ok sink) →
      ((jsonConfig d m (some { Initial := 100, Thereafter := 100 })).2.Build
        d.Open [] w).1.2 = none ∧
      (NewZapLogger d m w).1.2 ≠ none) := by
  obtain ⟨b1, b2, b3, b4, _⟩ := Build_cases cfg o opts w
  refine ⟨b1, b2, b3, b4, ?_, ?_, ?_⟩
  · intro hjson
    rw [NewZapLogger_json d m w hjson]
    exact ⟨rfl, rfl, (Build_cases _ d.Open [] w).2.2.2.2⟩
  · intro hcons
    rw [NewZapLogger_console d m w hcons]
    exact ⟨rfl, rfl, hlib _ w⟩
  · intro hjson hopen
    rw [NewZapLogger_json d m w hjson]
    have hs : ((jsonConfig d m (some { Initial := 100, Thereafter := 100 })).2.openSinks
        d.Open w).1.2.2 = none :=
      openSinks_err_none_of_opens _ d.Open w hopen hopen
    have hb := (Build_cases (jsonConfig d m (some { Initial := 100, Thereafter := 100 })).2
      d.Open [] w).2.2.2.1 rfl hs
    exact ⟨hb.1, hb.2.1⟩

theorem C10_Build_witness :
    fileErrConfig.Build openerFailsSecond [] [] =
      ((none, some "permission denied"), (fileErrConfig.openSinks openerFailsSecond []).2) ∧
    (((jsonConfig stderrDeps jsonModuleConfig
        (some { Initial := 100, Thereafter := 100 })).2.Build stderrDeps.Open [] []).1.2 = none ∧
      (NewZapLogger stderrDeps jsonModuleConfig []).1.2 ≠ none) ∧
    ((NewZapLogger stderrDeps consoleModuleConfig []).1.2 = none ↔
      (stderrDeps.zapConfigBuild
        (consoleConfig stderrDeps consoleModuleConfig
          (some { Initial := 100, Thereafter := 100 })) []).1.2 ≠ none) :=
  ⟨(C10_Build_failure_reaches_caller fileErrConfig openerFailsSecond [] []
      stderrDeps jsonModuleConfig
      (fun _ w1 => (Build_cases _ stderrOpener [] w1).2.2.2.2)).2.2.1
        "permission denied" rfl rfl,
    (C10_Build_failure_reaches_caller fileErrConfig openerFailsSecond [] []
      stderrDeps jsonModuleConfig
      (fun _ w1 => (Build_cases _ stderrOpener [] w1).2.2.2.2)).2.2.2.2.2.2
        (by decide) (fun _ => ⟨_, rfl⟩),
    ((C10_Build_failure_reaches_caller fileErrConfig openerFailsSecond [] []
      stderrDeps consoleModuleConfig
      (fun _ w1 => (Build_cases _ stderrOpener [] w1).2.2.2.2)).2.2.2.2.2.1 (by decide)).2.2⟩

/-- C9: `GetAtomicLevel` does not return the "warning" default on an
unrecognised level: whenever the parser reports an error the level is set to
debug, as on "verbose", also when that level reaches `jsonConfig` through
`SetLevel` and `InitConfig`; the sibling path `InitConfig` substitutes the
package's `defaultLevel`, "warn", for the same string. -/
theorem C9_GetAtomicLevel_unrecognised_is_debug :
    (∀ (p : String → Except Error zapcore.Level) (v : String),
      (∃ e, p v = Except.error e) → GetAtomicLevel p v = zapcore.Level.DebugLevel) ∧
    (∃ e, zapcore.UnmarshalText "verbose" = Except.error e) ∧
    GetAtomicLevel zapcore.UnmarshalText "verbose" = zapcore.Level.DebugLevel ∧
    GetAtomicLevel zapcore.UnmarshalText "verbose" ≠ zapcore.Level.WarnLevel ∧
    (jsonConfig stderrDeps
      (((NewModuleConfig none).SetLevel "verbose").1.InitConfig (envWithLevel "warn")).1
      none).2.Level = zapcore.Level.DebugLevel ∧
    levelOfName defaultLevel = some zapcore.Level.WarnLevel ∧
    ((NewModuleConfig none).InitConfig (envWithLevel "verbose")).1.level = "warn" := by
  refine ⟨?_, ⟨_, rfl⟩, by decide, by decide, by decide, by decide, by decide⟩
  rintro p v ⟨e, he⟩
  exact GetAtomicLevel_of_error p v e he

end Logger
